import Mathlib

/-!
Verification of the data-loading front end of the Stochastic-CFLP repository.

The repository's `src/Facility location/src/data.py` defines the `Data`
dataclass, the `word_reader` token generator, `generate_scenarios` and
`read_dataset`; `src/Facility location/src/main.py` reads a dataset file and
calls `solve_stochastic_cflp` (from `master_problem.py`, which is not part of
the repository snapshot and is therefore modelled from the specification where
a claim needs it).

Modelling conventions:
* a dataset file is its list of lines (`List String`); `word_reader` splits
  them into whitespace-separated words exactly as Python `str.split()` does;
* Python numbers are embedded as `ℚ` (for `float`) and `ℤ` (for `int`);
  `int(tok)` and `float(tok)` are parsers for the plain decimal numerals
  appearing in these dataset files (optional minus sign, digits, and for
  `float` an optional fractional part);
* `np.random.normal(mu, sigma)` is modelled through its location–scale form
  `mu + sigma * z`, where `z` is the standard-normal draw.  The draws of a run
  are an oracle `draw : ℕ → ℕ → ℚ` giving the standard-normal sample used for
  scenario `s`, customer `i`.  numpy raises `ValueError` when `sigma < 0`,
  which the embedding models as `none`;
* a Python function that can raise returns `Option`.
-/

namespace StochasticCFLP

/-- Numeric value of a decimal digit character. -/
def digitVal (c : Char) : ℕ := c.toNat - '0'.toNat

/-- Value of a nonempty all-digit character run, `none` otherwise. -/
def digitsVal (cs : List Char) : Option ℕ :=
  if cs = [] ∨ ¬ cs.all Char.isDigit then none
  else some (cs.foldl (fun n c => n * 10 + digitVal c) 0)

/-- Python `int(token)` as invoked by `read_dataset`: an optional minus sign
followed by digits. -/
def py_int (s : String) : Option ℤ :=
  match s.data with
  | '-' :: t => (digitsVal t).map (fun n => -(n : ℤ))
  | cs => (digitsVal cs).map (fun n => (n : ℤ))

/-- Split a character run at every `'.'`, keeping empty pieces, as Python's
`str.split('.')` would. -/
def splitDot : List Char → List (List Char)
  | [] => [[]]
  | c :: t =>
    if c = '.' then [] :: splitDot t
    else
      match splitDot t with
      | [] => [[c]]
      | w :: ws => (c :: w) :: ws

/-- The shape of a decimal numeral: sign, integer part, fractional part, and
number of fractional digits. -/
def py_decimal (cs : List Char) : Option (Bool × ℕ × ℕ × ℕ) :=
  let core : List Char → Option (ℕ × ℕ × ℕ) := fun t =>
    match splitDot t with
    | [a] => (digitsVal a).map (fun n => (n, 0, 0))
    | [a, b] =>
      match digitsVal a, digitsVal b with
      | some na, some nb => some (na, nb, b.length)
      | _, _ => none
    | _ => none
  match cs with
  | '-' :: t => (core t).map (fun p => (true, p))
  | _ => (core cs).map (fun p => (false, p))

/-- The rational value of a parsed decimal numeral. -/
def ratOfDecimal : Bool × ℕ × ℕ × ℕ → ℚ
  | (neg, ip, fp, fl) =>
    (if neg then (-1 : ℚ) else 1) * ((ip : ℚ) + (fp : ℚ) / (10 : ℚ) ^ fl)

/-- Python `float(token)` as invoked by `read_dataset`, restricted to the
plain decimal numerals found in these dataset files. -/
def py_float (s : String) : Option ℚ := (py_decimal s.data).map ratOfDecimal

/-- Split a character run into maximal whitespace-free words, dropping the
whitespace, as Python's argumentless `str.split()` does.  `acc` holds the
current word reversed. -/
def wordsAux : List Char → List Char → List (List Char)
  | [], acc => if acc = [] then [] else [acc.reverse]
  | c :: t, acc =>
    if c.isWhitespace then
      if acc = [] then wordsAux t [] else acc.reverse :: wordsAux t []
    else wordsAux t (c :: acc)

/-- Python `line.split()`: the whitespace-separated words of one line. -/
def py_split_words (line : String) : List String :=
  (wordsAux line.data []).map (fun cs => String.mk cs)

/-- The `word_reader` generator of `data.py`: for each line of the file, yield
its whitespace-separated words. -/
def word_reader (lines : List String) : List String :=
  (lines.map py_split_words).flatten

/-- Consume `k` tokens from the word stream, parsing each with `p`; `none`
models Python raising (`StopIteration` on stream exhaustion, `ValueError` on a
failed parse).  Returns the parsed values and the remaining stream. -/
def readNums {α : Type} (p : String → Option α) : ℕ → List String → Option (List α × List String)
  | 0, ts => some ([], ts)
  | Nat.succ _, [] => none
  | Nat.succ k, t :: ts =>
    match p t with
    | none => none
    | some v =>
      match readNums p k ts with
      | none => none
      | some (vs, rest) => some (v :: vs, rest)

/-- Consume `k` pairs of tokens (the per-facility `capacity`, `fixed_cost`
pairs of `read_dataset`), each parsed with `p`. -/
def readPairs {α : Type} (p : String → Option α) : ℕ → List String → Option (List (α × α) × List String)
  | 0, ts => some ([], ts)
  | Nat.succ k, t1 :: t2 :: ts =>
    match p t1, p t2 with
    | some a, some b =>
      match readPairs p k ts with
      | some (vs, rest) => some ((a, b) :: vs, rest)
      | none => none
    | _, _ => none
  | Nat.succ _, _ => none

/-- The `Data` dataclass of `data.py`.  numpy arrays are embedded as lists
(matrices as lists of rows). -/
structure Data where
  I : List ℕ
  J : List ℕ
  S : List ℕ
  demands : List ℚ
  scenarios : List (List ℚ)
  capacities : List ℤ
  fixed_costs : List ℤ
  shipment_costs : List (List ℚ)
  max_demand_sum_over_scenario : ℚ
deriving DecidableEq

/-- The `Data` dataclass is declared `@dataclass` with no `frozen=True`
argument (data.py line 6), so Python generates ordinary mutable attribute
assignment for it. -/
def data_dataclass_frozen : Bool := false

/-- Python semantics of the statement `d.capacities = v` on a `Data` value:
on a frozen dataclass, attribute assignment raises `FrozenInstanceError`;
otherwise it rebinds the field. -/
def set_capacities (d : Data) (v : List ℤ) : Except String Data :=
  if data_dataclass_frozen then Except.error "FrozenInstanceError" else
    Except.ok { d with capacities := v }

/-- The `generate_scenarios` function of `data.py`:
entry `(s, i)` is `max(0, np.random.normal(mu_i, variance_factor * mu_i))`,
i.e. `max 0 (mu_i + variance_factor * mu_i * z)` with `z` the standard-normal
draw `draw s i`.  numpy raises `ValueError` on a negative scale, so the call
fails (`none`) as soon as some demand makes `variance_factor * mu` negative —
unless `num_scenarios = 0`, in which case the comprehension never samples and
an empty matrix is returned. -/
def generate_scenarios (demands : List ℚ) (num_scenarios : ℕ) (variance_factor : ℚ)
    (draw : ℕ → ℕ → ℚ) : Option (List (List ℚ)) :=
  if num_scenarios = 0 ∨ demands.all (fun mu => 0 ≤ variance_factor * mu) then
    some ((List.range num_scenarios).map (fun s =>
      demands.enum.map (fun p => max 0 (p.2 + variance_factor * p.2 * draw s p.1))))
  else none

/-- The `read_dataset` function of `data.py`, over the token stream produced
by `word_reader`.  It reads, in order: the facility count, the customer count,
per-facility `(capacity, fixed_cost)` integer pairs, the customer demands, and
a `num_facilities × num_customers` shipment-cost matrix in row-major order
which is then transposed — so row `i`, column `j` of the stored matrix is the
file's entry for facility `j`, customer `i`, i.e. flat cost token number
`j * num_customers + i`.  It then generates the demand scenarios and takes
`max` over scenarios of each scenario's total demand (Python `max` on an
empty argument raises, hence `none` via `List.max?` when `num_scenarios = 0`;
each scenario row has exactly `num_customers` entries, so the Python sum of
`scenarios[s, i]` over `i in I` is the row sum).  Negative header counts are
modelled as a failure: numpy `reshape` rejects negative dimensions (the lone
`-1` wildcard corner of numpy is not modelled).  Tokens beyond those consumed
are ignored, as the Python generator simply never reads them. -/
def read_dataset (toks : List String) (num_scenarios : ℕ) (variance_factor : ℚ)
    (draw : ℕ → ℕ → ℚ) : Option Data :=
  match toks with
  | ftok :: ctok :: rest =>
    match py_int ftok, py_int ctok with
    | some nfz, some ncz =>
      if nfz < 0 ∨ ncz < 0 then none else
      match readPairs py_int nfz.toNat rest with
      | some (capfc, t2) =>
        match readNums py_float ncz.toNat t2 with
        | some (demands, t3) =>
          match readNums py_float (nfz.toNat * ncz.toNat) t3 with
          | some (costs, _) =>
            match generate_scenarios demands num_scenarios variance_factor draw with
            | some scen =>
              match (scen.map List.sum).max? with
              | some mx =>
                some { I := List.range ncz.toNat
                       J := List.range nfz.toNat
                       S := List.range num_scenarios
                       demands := demands
                       scenarios := scen
                       capacities := capfc.map Prod.fst
                       fixed_costs := capfc.map Prod.snd
                       shipment_costs := (List.range ncz.toNat).map (fun i =>
                         (List.range nfz.toNat).map (fun j => costs.getD (j * ncz.toNat + i) 0))
                       max_demand_sum_over_scenario := mx }
              | none => none
            | none => none
          | none => none
        | none => none
      | none => none
    | _, _ => none
  | _ => none

/-- Modelled from the spec: the `Result` entity returned by
`solve_stochastic_cflp` (defined in `master_problem.py`, which is not in the
repository snapshot).  Its fields are the ones the spec lists and `main.py`
reads: objective value, opening vector, elapsed wall time, per-scenario cut
counters split by provenance (incumbent-node `num_cuts_mip` and
relaxation-node `num_cuts_rel`), and the total branch-and-bound node count. -/
structure Result where
  objective_value : ℚ
  locations : List ℚ
  solution_time : ℚ
  num_cuts_mip : List ℕ
  num_cuts_rel : List ℕ
  num_bnb_nodes : ℕ
deriving DecidableEq

/-- Modelled from the spec: `solve_stochastic_cflp` (master_problem.py, not in
the repository snapshot) — the single solve operation of the core, a function
of the problem instance alone.  Only the interface shape is modelled: the
opening vector has one entry per facility and each cut-counter list has one
entry per scenario, as the spec requires; the solving engine that fills in the
numerical values is the missing module, so those values are not modelled. -/
def solve_stochastic_cflp (d : Data) : Result :=
  { objective_value := 0
    locations := List.replicate d.J.length 0
    solution_time := 0
    num_cuts_mip := List.replicate d.S.length 0
    num_cuts_rel := List.replicate d.S.length 0
    num_bnb_nodes := 1 }

/-- The end-to-end pipeline of `main.py` on an already-word-split file: read
the dataset with the default arguments (`num_scenarios=10`,
`variance_factor=0.2`) and solve it.  `main.py` prints fields of both the
`Data` and the solution, so the observable outcome of a run is the pair. -/
def run_pipeline (toks : List String) (draw : ℕ → ℕ → ℚ) : Option (Data × Result) :=
  (read_dataset toks 10 (1/5) draw).map (fun d => (d, solve_stochastic_cflp d))

/-- An all-zeros standard-normal draw oracle (each sample lands on its mean). -/
def zeroDraw : ℕ → ℕ → ℚ := fun _ _ => 0

/-- A draw oracle in which every standard-normal sample comes out `1`. -/
def oneDraw : ℕ → ℕ → ℚ := fun _ _ => 1

/-- Token stream of a one-facility, one-customer dataset: capacity `5`,
fixed cost `10`, demand `3`, unit shipment cost `2`. -/
def toks1 : List String := ["1", "1", "5", "10", "3", "2"]

/-- Token stream of a two-facility, two-customer dataset: capacities `5`, `6`,
fixed costs `10`, `12`, demands `3`, `4`, and the shipment-cost matrix
`[[7, 8], [9, 11]]` in facility-major file order. -/
def toks2 : List String := ["2", "2", "5", "10", "6", "12", "3", "4", "7", "8", "9", "11"]

/-- The `Data` value `read_dataset` builds from `toks1` with one scenario and
the all-zeros draw oracle. -/
def dEx1 : Data :=
  { I := [0], J := [0], S := [0], demands := [3], scenarios := [[3]],
    capacities := [5], fixed_costs := [10], shipment_costs := [[2]],
    max_demand_sum_over_scenario := 3 }

/-- The `Data` value `read_dataset` builds from `toks2` with one scenario and
the all-zeros draw oracle. -/
def dEx2 : Data :=
  { I := [0, 1], J := [0, 1], S := [0], demands := [3, 4], scenarios := [[3, 4]],
    capacities := [5, 6], fixed_costs := [10, 12], shipment_costs := [[7, 9], [8, 11]],
    max_demand_sum_over_scenario := 7 }

/-- The instance `read_dataset` builds from `toks1` with the negative capacity
`-5` in place of `5`. -/
def dCx1 : Data :=
  { I := [0], J := [0], S := [0], demands := [3], scenarios := [[3]],
    capacities := [-5], fixed_costs := [10], shipment_costs := [[2]],
    max_demand_sum_over_scenario := 3 }

/-- The instance built from `toks1` with ten scenarios under the all-zeros
draw oracle. -/
def dEx1ten : Data :=
  { I := [0], J := [0], S := List.range 10, demands := [3],
    scenarios := List.replicate 10 [3], capacities := [5], fixed_costs := [10],
    shipment_costs := [[2]], max_demand_sum_over_scenario := 3 }

/-- The instance built from `toks1` with ten scenarios under the all-ones
draw oracle: every sampled demand is `3 + 0.2 * 3 = 18/5`. -/
def dEx1tenOne : Data :=
  { I := [0], J := [0], S := List.range 10, demands := [3],
    scenarios := List.replicate 10 [18/5], capacities := [5], fixed_costs := [10],
    shipment_costs := [[2]], max_demand_sum_over_scenario := 18/5 }

/-- A draw oracle whose sample for scenario `s`, customer `i` is `s + i`. -/
def natSumDraw : ℕ → ℕ → ℚ := fun s i => ((s + i : ℕ) : ℚ)

/-- The same oracle with the addition written the other way around. -/
def natSumDrawComm : ℕ → ℕ → ℚ := fun s i => ((i + s : ℕ) : ℚ)

/-- The Python expression `sum(scenarios[s, i] for i in I)` of `read_dataset`:
the aggregate demand of scenario `s` over the customer index list `I`. -/
def scenario_demand_sum (d : Data) (s : ℕ) : ℚ :=
  (d.I.map (fun i => (d.scenarios.getD s []).getD i 0)).sum

/-- The deterministic fields of a parsed instance: everything except the
randomly sampled scenario matrix and the maximum aggregate scenario demand
derived from it. -/
def parse_fields (od : Option Data) :
    Option (List ℕ × List ℕ × List ℕ × List ℚ × List ℤ × List ℤ × List (List ℚ)) :=
  od.map (fun d => (d.I, d.J, d.S, d.demands, d.capacities, d.fixed_costs, d.shipment_costs))

/-- `read_dataset` on a dataset file given as its list of lines, via the
`word_reader` token stream, exactly as `data.py` wires them together. -/
def read_dataset_file (lines : List String) (num_scenarios : ℕ) (variance_factor : ℚ)
    (draw : ℕ → ℕ → ℚ) : Option Data :=
  read_dataset (word_reader lines) num_scenarios variance_factor draw

/-! Helper lemmas about the token-stream readers. -/

theorem readNums_zero {α : Type} (p : String → Option α) (ts : List String) :
    readNums p 0 ts = some ([], ts) := rfl

theorem readNums_succ_cons {α : Type} (p : String → Option α) (k : ℕ) (t : String)
    (ts : List String) :
    readNums p (k + 1) (t :: ts) =
      match p t with
      | none => none
      | some v =>
        match readNums p k ts with
        | none => none
        | some (vs, rest) => some (v :: vs, rest) := rfl

theorem readNums_step {α : Type} {p : String → Option α} {k : ℕ} {t : String} {ts : List String}
    {v : α} {vs : List α} {rest : List String}
    (hp : p t = some v) (hrest : readNums p k ts = some (vs, rest)) :
    readNums p (k + 1) (t :: ts) = some (v :: vs, rest) := by
  rw [readNums_succ_cons, hp, hrest]

theorem readPairs_zero {α : Type} (p : String → Option α) (ts : List String) :
    readPairs p 0 ts = some ([], ts) := rfl

theorem readPairs_succ_cons {α : Type} (p : String → Option α) (k : ℕ) (t1 t2 : String)
    (ts : List String) :
    readPairs p (k + 1) (t1 :: t2 :: ts) =
      match p t1, p t2 with
      | some a, some b =>
        match readPairs p k ts with
        | some (vs, rest) => some ((a, b) :: vs, rest)
        | none => none
      | _, _ => none := rfl

theorem readPairs_step {α : Type} {p : String → Option α} {k : ℕ} {t1 t2 : String}
    {ts : List String} {a b : α} {vs : List (α × α)} {rest : List String}
    (h1 : p t1 = some a) (h2 : p t2 = some b) (h3 : readPairs p k ts = some (vs, rest)) :
    readPairs p (k + 1) (t1 :: t2 :: ts) = some ((a, b) :: vs, rest) := by
  rw [readPairs_succ_cons, h1, h2, h3]

theorem readNums_spec {α : Type} (p : String → Option α) (dflt : α) :
    ∀ (k : ℕ) (ts : List String) (vs : List α) (rest : List String),
      readNums p k ts = some (vs, rest) →
      vs.length = k ∧ rest = ts.drop k ∧
        ∀ m, m < k → p (ts.getD m "") = some (vs.getD m dflt) := by
  intro k
  induction k with
  | zero =>
    intro ts vs rest h
    rw [readNums_zero] at h
    obtain ⟨h1, h2⟩ := Prod.mk.injEq .. ▸ Option.some.inj h
    subst h1; subst h2
    simp
  | succ k ih =>
    intro ts vs rest h
    cases ts with
    | nil => simp [readNums] at h
    | cons t ts =>
      rw [readNums_succ_cons] at h
      cases hp : p t with
      | none => rw [hp] at h; simp at h
      | some v =>
        rw [hp] at h
        cases hr : readNums p k ts with
        | none => rw [hr] at h; simp at h
        | some pr =>
          obtain ⟨vs0, rest0⟩ := pr
          rw [hr] at h
          simp only [Option.some.injEq, Prod.mk.injEq] at h
          obtain ⟨h1, h2⟩ := h
          subst h1; subst h2
          obtain ⟨l1, l2, l3⟩ := ih ts vs0 rest0 hr
          refine ⟨by simp [l1], by simpa using l2, ?_⟩
          intro m hm
          cases m with
          | zero => simpa using hp
          | succ m => simpa using l3 m (by omega)

theorem readPairs_spec {α : Type} (p : String → Option α) :
    ∀ (k : ℕ) (ts : List String) (vs : List (α × α)) (rest : List String),
      readPairs p k ts = some (vs, rest) →
      vs.length = k ∧ rest = ts.drop (2 * k) := by
  intro k
  induction k with
  | zero =>
    intro ts vs rest h
    rw [readPairs_zero] at h
    obtain ⟨h1, h2⟩ := Prod.mk.injEq .. ▸ Option.some.inj h
    subst h1; subst h2
    simp
  | succ k ih =>
    intro ts vs rest h
    cases ts with
    | nil => simp [readPairs] at h
    | cons t1 ts1 =>
      cases ts1 with
      | nil => simp [readPairs] at h
      | cons t2 ts =>
        rw [readPairs_succ_cons] at h
        cases hp1 : p t1 with
        | none => rw [hp1] at h; simp at h
        | some a =>
          rw [hp1] at h
          cases hp2 : p t2 with
          | none => rw [hp2] at h; simp at h
          | some b =>
            rw [hp2] at h
            cases hr : readPairs p k ts with
            | none => rw [hr] at h; simp at h
            | some pr =>
              obtain ⟨vs0, rest0⟩ := pr
              rw [hr] at h
              simp only [Option.some.injEq, Prod.mk.injEq] at h
              obtain ⟨h1, h2⟩ := h
              subst h1; subst h2
              obtain ⟨l1, l2⟩ := ih ts vs0 rest0 hr
              refine ⟨by simp [l1], ?_⟩
              rw [l2]
              have : 2 * (k + 1) = 2 * k + 1 + 1 := by omega
              rw [this]
              simp

/-! Helper lemmas about Python `max` over a list, which `List.max?` embeds
(`max(xs)` raises on an empty argument, otherwise folds binary `max`). -/

theorem foldl_max_spec : ∀ (as : List ℚ) (a : ℚ),
    (as.foldl max a = a ∨ as.foldl max a ∈ as) ∧ a ≤ as.foldl max a ∧
      ∀ x ∈ as, x ≤ as.foldl max a := by
  intro as
  induction as with
  | nil => intro a; simp
  | cons b bs ih =>
    intro a
    obtain ⟨h1, h2, h3⟩ := ih (max a b)
    simp only [List.foldl_cons]
    refine ⟨?_, le_trans (le_max_left a b) h2, ?_⟩
    · rcases h1 with h | h
      · rcases max_choice a b with hc | hc
        · exact Or.inl (by rw [h, hc])
        · exact Or.inr (by rw [h, hc]; exact List.mem_cons_self b bs)
      · exact Or.inr (List.mem_cons_of_mem b h)
    · intro x hx
      rcases List.mem_cons.mp hx with rfl | hx
      · exact le_trans (le_max_right a x) h2
      · exact h3 x hx

theorem max?_spec {l : List ℚ} {m : ℚ} (h : l.max? = some m) :
    m ∈ l ∧ ∀ x ∈ l, x ≤ m := by
  cases l with
  | nil => simp [List.max?] at h
  | cons a as =>
    have hm : as.foldl max a = m := by
      have : (a :: as).max? = some (as.foldl max a) := rfl
      rw [this] at h
      exact Option.some.inj h
    obtain ⟨h1, h2, h3⟩ := foldl_max_spec as a
    rw [hm] at h1 h2 h3
    constructor
    · rcases h1 with h | h
      · rw [h]; exact List.mem_cons_self a as
      · exact List.mem_cons_of_mem a h
    · intro x hx
      rcases List.mem_cons.mp hx with rfl | hx
      · exact h2
      · exact h3 x hx

/-! Helper lemmas about `generate_scenarios` and `read_dataset`. -/

theorem generate_scenarios_some {demands : List ℚ} {k : ℕ} {vf : ℚ} {draw : ℕ → ℕ → ℚ}
    {scen : List (List ℚ)}
    (h : generate_scenarios demands k vf draw = some scen) :
    scen = (List.range k).map (fun s =>
      demands.enum.map (fun p => max 0 (p.2 + vf * p.2 * draw s p.1))) := by
  unfold generate_scenarios at h
  split at h
  · exact (Option.some.inj h).symm
  · exact absurd h (by simp)

theorem generate_scenarios_shape {demands : List ℚ} {k : ℕ} {vf : ℚ} {draw : ℕ → ℕ → ℚ}
    {scen : List (List ℚ)}
    (h : generate_scenarios demands k vf draw = some scen) :
    scen.length = k ∧ ∀ row ∈ scen, row.length = demands.length := by
  rw [generate_scenarios_some h]
  refine ⟨by simp, ?_⟩
  intro row hrow
  simp only [List.mem_map] at hrow
  obtain ⟨s, _, rfl⟩ := hrow
  simp [List.enum]

theorem read_dataset_some {ftok ctok : String} {rest : List String} {nfz ncz : ℤ}
    {k : ℕ} {vf : ℚ} {draw : ℕ → ℕ → ℚ} {capfc : List (ℤ × ℤ)} {t2 : List String}
    {demands : List ℚ} {t3 : List String} {costs : List ℚ} {t4 : List String}
    {scen : List (List ℚ)} {mx : ℚ}
    (h1 : py_int ftok = some nfz) (h2 : py_int ctok = some ncz)
    (h3 : ¬(nfz < 0 ∨ ncz < 0))
    (h4 : readPairs py_int nfz.toNat rest = some (capfc, t2))
    (h5 : readNums py_float ncz.toNat t2 = some (demands, t3))
    (h6 : readNums py_float (nfz.toNat * ncz.toNat) t3 = some (costs, t4))
    (h7 : generate_scenarios demands k vf draw = some scen)
    (h8 : (scen.map List.sum).max? = some mx) :
    read_dataset (ftok :: ctok :: rest) k vf draw =
      some { I := List.range ncz.toNat, J := List.range nfz.toNat, S := List.range k,
             demands := demands, scenarios := scen,
             capacities := capfc.map Prod.fst, fixed_costs := capfc.map Prod.snd,
             shipment_costs := (List.range ncz.toNat).map (fun i =>
               (List.range nfz.toNat).map (fun j => costs.getD (j * ncz.toNat + i) 0)),
             max_demand_sum_over_scenario := mx } := by
  simp only [read_dataset, h1, h2, h4, h5, h6, h7, h8]
  rw [if_neg h3]

theorem read_dataset_inversion {toks : List String} {k : ℕ} {vf : ℚ} {draw : ℕ → ℕ → ℚ}
    {d : Data} (h : read_dataset toks k vf draw = some d) :
    ∃ ftok ctok rest nfz ncz capfc t2 demands t3 costs t4 scen mx,
      toks = ftok :: ctok :: rest ∧
      py_int ftok = some nfz ∧ py_int ctok = some ncz ∧
      ¬(nfz < 0 ∨ ncz < 0) ∧
      readPairs py_int nfz.toNat rest = some (capfc, t2) ∧
      readNums py_float ncz.toNat t2 = some (demands, t3) ∧
      readNums py_float (nfz.toNat * ncz.toNat) t3 = some (costs, t4) ∧
      generate_scenarios demands k vf draw = some scen ∧
      (scen.map List.sum).max? = some mx ∧
      d = { I := List.range ncz.toNat, J := List.range nfz.toNat, S := List.range k,
            demands := demands, scenarios := scen,
            capacities := capfc.map Prod.fst, fixed_costs := capfc.map Prod.snd,
            shipment_costs := (List.range ncz.toNat).map (fun i =>
              (List.range nfz.toNat).map (fun j => costs.getD (j * ncz.toNat + i) 0)),
            max_demand_sum_over_scenario := mx } := by
  cases toks with
  | nil => simp [read_dataset] at h
  | cons ftok ts =>
    cases ts with
    | nil => simp [read_dataset] at h
    | cons ctok rest =>
      simp only [read_dataset] at h
      split at h
      next nfz ncz hf hc =>
        split at h
        next hneg => simp at h
        next hneg =>
          split at h
          next capfc t2 h4 =>
            split at h
            next demands t3 h5 =>
              split at h
              next costs t4 h6 =>
                split at h
                next scen h7 =>
                  split at h
                  next mx h8 =>
                    exact ⟨ftok, ctok, rest, nfz, ncz, capfc, t2, demands, t3, costs,
                      t4, scen, mx, rfl, hf, hc, hneg, h4, h5, h6, h7, h8,
                      (Option.some.inj h).symm⟩
                  next h8 => simp at h
                next h7 => simp at h
              next h6 => simp at h
            next h5 => simp at h
          next h4 => simp at h
      next hf hc => simp at h

/-! Concrete parses of the individual tokens used by the example datasets. -/

theorem py_float_of_decimal {s : String} {n : ℕ}
    (h : py_decimal s.data = some (false, n, 0, 0)) : py_float s = some (n : ℚ) := by
  simp [py_float, h, ratOfDecimal]

theorem pi_1 : py_int "1" = some 1 := by decide

theorem pi_2 : py_int "2" = some 2 := by decide

theorem pi_5 : py_int "5" = some 5 := by decide

theorem pi_6 : py_int "6" = some 6 := by decide

theorem pi_10 : py_int "10" = some 10 := by decide

theorem pi_12 : py_int "12" = some 12 := by decide

theorem pi_neg5 : py_int "-5" = some (-5) := by decide

theorem pyf_2 : py_float "2" = some 2 := by
  simpa using py_float_of_decimal (by decide : py_decimal "2".data = some (false, 2, 0, 0))

theorem pyf_3 : py_float "3" = some 3 := by
  simpa using py_float_of_decimal (by decide : py_decimal "3".data = some (false, 3, 0, 0))

theorem pyf_4 : py_float "4" = some 4 := by
  simpa using py_float_of_decimal (by decide : py_decimal "4".data = some (false, 4, 0, 0))

theorem pyf_7 : py_float "7" = some 7 := by
  simpa using py_float_of_decimal (by decide : py_decimal "7".data = some (false, 7, 0, 0))

theorem pyf_8 : py_float "8" = some 8 := by
  simpa using py_float_of_decimal (by decide : py_decimal "8".data = some (false, 8, 0, 0))

theorem pyf_9 : py_float "9" = some 9 := by
  simpa using py_float_of_decimal (by decide : py_decimal "9".data = some (false, 9, 0, 0))

theorem pyf_11 : py_float "11" = some 11 := by
  simpa using py_float_of_decimal (by decide : py_decimal "11".data = some (false, 11, 0, 0))

/-! Concrete scenario generations and aggregate-demand maxima. -/

theorem range_one_eq : List.range 1 = [0] := by decide

theorem range_two_eq : List.range 2 = [0, 1] := by decide

theorem gs_3_1_zero : generate_scenarios [3] 1 (1/5) zeroDraw = some [[3]] := by
  unfold generate_scenarios
  split
  · simp [range_one_eq, List.enum_cons, zeroDraw]
  · next hcond => exact absurd (Or.inr (by simp)) hcond

theorem gs_34_1_zero : generate_scenarios [3, 4] 1 (1/5) zeroDraw = some [[3, 4]] := by
  unfold generate_scenarios
  split
  · simp [range_one_eq, List.enum_cons, List.enumFrom_cons, zeroDraw]
  · next hcond => exact absurd (Or.inr (by simp)) hcond

theorem gs_3_10_zero : generate_scenarios [3] 10 (1/5) zeroDraw = some (List.replicate 10 [3]) := by
  unfold generate_scenarios
  split
  · simp [List.enum_cons, zeroDraw, List.map_const']
  · next hcond => exact absurd (Or.inr (by simp)) hcond

theorem gs_3_10_one : generate_scenarios [3] 10 (1/5) oneDraw = some (List.replicate 10 [18/5]) := by
  unfold generate_scenarios
  split
  · simp [List.enum_cons, oneDraw, List.map_const']
    norm_num
  · next hcond => exact absurd (Or.inr (by simp)) hcond

theorem max?_map_sum_single (row : List ℚ) : (([row]).map List.sum).max? = some row.sum := rfl

theorem hmax_3 : (([[(3:ℚ)]]).map List.sum).max? = some 3 := by
  rw [max?_map_sum_single]; norm_num

theorem hmax_34 : (([[(3:ℚ), 4]]).map List.sum).max? = some 7 := by
  rw [max?_map_sum_single]; norm_num

theorem hmax_rep3 : ((List.replicate 10 [(3:ℚ)]).map List.sum).max? = some 3 := by
  rw [List.map_replicate, List.max?_replicate (max_self _)]
  norm_num

theorem hmax_rep185 : ((List.replicate 10 [(18/5 : ℚ)]).map List.sum).max? = some (18/5) := by
  rw [List.map_replicate, List.max?_replicate (max_self _)]
  norm_num

/-! Concrete evaluations of `read_dataset` on the example datasets. -/

theorem ev_toks1_1 : read_dataset toks1 1 (1/5) zeroDraw = some dEx1 := by
  have h4 : readPairs py_int 1 ["5", "10", "3", "2"] = some ([(5, 10)], ["3", "2"]) :=
    readPairs_step pi_5 pi_10 (readPairs_zero _ _)
  have h5 : readNums py_float 1 ["3", "2"] = some ([3], ["2"]) :=
    readNums_step pyf_3 (readNums_zero _ _)
  have h6 : readNums py_float 1 ["2"] = some ([2], []) :=
    readNums_step pyf_2 (readNums_zero _ _)
  have h := read_dataset_some pi_1 pi_1 (by decide) h4 h5 h6 gs_3_1_zero hmax_3
  exact h

theorem ev_toks1_neg : read_dataset ["1", "1", "-5", "10", "3", "2"] 1 (1/5) zeroDraw
    = some dCx1 := by
  have h4 : readPairs py_int 1 ["-5", "10", "3", "2"] = some ([(-5, 10)], ["3", "2"]) :=
    readPairs_step pi_neg5 pi_10 (readPairs_zero _ _)
  have h5 : readNums py_float 1 ["3", "2"] = some ([3], ["2"]) :=
    readNums_step pyf_3 (readNums_zero _ _)
  have h6 : readNums py_float 1 ["2"] = some ([2], []) :=
    readNums_step pyf_2 (readNums_zero _ _)
  exact read_dataset_some pi_1 pi_1 (by decide) h4 h5 h6 gs_3_1_zero hmax_3

theorem ev_toks2_1 : read_dataset toks2 1 (1/5) zeroDraw = some dEx2 := by
  have h4 : readPairs py_int 2 ["5", "10", "6", "12", "3", "4", "7", "8", "9", "11"]
      = some ([(5, 10), (6, 12)], ["3", "4", "7", "8", "9", "11"]) :=
    readPairs_step pi_5 pi_10 (readPairs_step pi_6 pi_12 (readPairs_zero _ _))
  have h5 : readNums py_float 2 ["3", "4", "7", "8", "9", "11"]
      = some ([3, 4], ["7", "8", "9", "11"]) :=
    readNums_step pyf_3 (readNums_step pyf_4 (readNums_zero _ _))
  have h6 : readNums py_float 4 ["7", "8", "9", "11"] = some ([7, 8, 9, 11], []) :=
    readNums_step pyf_7 (readNums_step pyf_8 (readNums_step pyf_9
      (readNums_step pyf_11 (readNums_zero _ _))))
  exact read_dataset_some pi_2 pi_2 (by decide) h4 h5 h6 gs_34_1_zero hmax_34

theorem ev_toks1_10z : read_dataset toks1 10 (1/5) zeroDraw = some dEx1ten := by
  have h4 : readPairs py_int 1 ["5", "10", "3", "2"] = some ([(5, 10)], ["3", "2"]) :=
    readPairs_step pi_5 pi_10 (readPairs_zero _ _)
  have h5 : readNums py_float 1 ["3", "2"] = some ([3], ["2"]) :=
    readNums_step pyf_3 (readNums_zero _ _)
  have h6 : readNums py_float 1 ["2"] = some ([2], []) :=
    readNums_step pyf_2 (readNums_zero _ _)
  exact read_dataset_some pi_1 pi_1 (by decide) h4 h5 h6 gs_3_10_zero hmax_rep3

theorem ev_toks1_10o : read_dataset toks1 10 (1/5) oneDraw = some dEx1tenOne := by
  have h4 : readPairs py_int 1 ["5", "10", "3", "2"] = some ([(5, 10)], ["3", "2"]) :=
    readPairs_step pi_5 pi_10 (readPairs_zero _ _)
  have h5 : readNums py_float 1 ["3", "2"] = some ([3], ["2"]) :=
    readNums_step pyf_3 (readNums_zero _ _)
  have h6 : readNums py_float 1 ["2"] = some ([2], []) :=
    readNums_step pyf_2 (readNums_zero _ _)
  exact read_dataset_some pi_1 pi_1 (by decide) h4 h5 h6 gs_3_10_one hmax_rep185

/-- Success of `generate_scenarios` together with the matrix shape, under the
nonnegative-scale condition that makes every numpy sampling call legal. -/
theorem gs_success_core (demands : List ℚ) (k : ℕ) (vf : ℚ) (draw : ℕ → ℕ → ℚ)
    (hcond : ∀ mu ∈ demands, 0 ≤ vf * mu) :
    ∃ scen, generate_scenarios demands k vf draw = some scen ∧
      scen.length = k ∧ ∀ row ∈ scen, row.length = demands.length := by
  have hc : k = 0 ∨ (demands.all fun mu => decide (0 ≤ vf * mu)) = true := by
    right
    simp only [List.all_eq_true, decide_eq_true_eq]
    exact hcond
  have hgs : generate_scenarios demands k vf draw = some ((List.range k).map (fun s =>
      demands.enum.map (fun p => max 0 (p.2 + vf * p.2 * draw s p.1)))) := by
    unfold generate_scenarios
    rw [if_pos hc]
  refine ⟨_, hgs, by simp, ?_⟩
  intro row hrow
  simp only [List.mem_map] at hrow
  obtain ⟨s, _, rfl⟩ := hrow
  simp [List.enum]

/-- Claim C1 (counterexample): a dataset whose capacity token is `-5` is not
rejected — `read_dataset` returns a `Data` object whose capacities hold `-5`. -/
theorem read_dataset_accepts_negative_capacity :
    (read_dataset ["1", "1", "-5", "10", "3", "2"] 1 (1/5) zeroDraw).map Data.capacities
      = some [-5] := by
  rw [ev_toks1_neg]
  rfl

/-- Claim C1 (amended): `read_dataset` performs no validation of capacity
signs: whatever integers the capacity and fixed-cost tokens hold — negative
included — construction succeeds on an otherwise well-formed file and the
returned `Data` carries them unchanged. -/
theorem read_dataset_no_capacity_validation (c f : String) (zc zf : ℤ)
    (hc : py_int c = some zc) (hf : py_int f = some zf) :
    ∃ d : Data, read_dataset ["1", "1", c, f, "3", "2"] 1 (1/5) zeroDraw = some d ∧
      d.capacities = [zc] ∧ d.fixed_costs = [zf] := by
  have h4 : readPairs py_int 1 [c, f, "3", "2"] = some ([(zc, zf)], ["3", "2"]) :=
    readPairs_step hc hf (readPairs_zero _ _)
  have h5 : readNums py_float 1 ["3", "2"] = some ([3], ["2"]) :=
    readNums_step pyf_3 (readNums_zero _ _)
  have h6 : readNums py_float 1 ["2"] = some ([2], []) :=
    readNums_step pyf_2 (readNums_zero _ _)
  exact ⟨_, read_dataset_some pi_1 pi_1 (by decide) h4 h5 h6 gs_3_1_zero hmax_3,
    by simp, by simp⟩

/-- Witness for C1's amended theorem at the concrete capacity token `"-7"`. -/
theorem read_dataset_no_capacity_validation_witness :
    ∃ d : Data, read_dataset ["1", "1", "-7", "10", "3", "2"] 1 (1/5) zeroDraw = some d ∧
      d.capacities = [-7] ∧ d.fixed_costs = [10] :=
  read_dataset_no_capacity_validation "-7" "10" (-7) 10 (by decide) (by decide)

/-- Claim C3 (counterexample): two runs of the end-to-end pipeline on the same
unchanged token stream do not produce identical results — the unseeded random
scenario sampling makes the built instance (whose fields `main.py` prints and
the solve consumes) depend on the draws, here all-zeros versus all-ones. -/
theorem pipeline_differs_across_draws :
    run_pipeline toks1 zeroDraw ≠ run_pipeline toks1 oneDraw := by
  intro h
  simp only [run_pipeline, ev_toks1_10z, ev_toks1_10o, Option.map_some'] at h
  have h2 := congrArg (fun pr => pr.1.max_demand_sum_over_scenario) (Option.some.inj h)
  simp only [dEx1ten, dEx1tenOne] at h2
  norm_num at h2

/-- Claim C3 (amended): the pipeline is a pure function of the token stream
and of the random draws — two runs whose standard-normal draws coincide
produce identical instances and identical solve results. -/
theorem pipeline_deterministic_given_draws (toks : List String)
    (draw1 draw2 : ℕ → ℕ → ℚ) (h : ∀ s i, draw1 s i = draw2 s i) :
    run_pipeline toks draw1 = run_pipeline toks draw2 := by
  have hfun : draw1 = draw2 := funext (fun s => funext (fun i => h s i))
  rw [hfun]

/-- Witness for C3's amended theorem: two pointwise-equal draw oracles yield
the same pipeline outcome. -/
theorem pipeline_deterministic_given_draws_witness :
    run_pipeline toks1 natSumDraw = run_pipeline toks1 natSumDrawComm :=
  pipeline_deterministic_given_draws toks1 natSumDraw natSumDrawComm
    (fun s i => by simp [natSumDraw, natSumDrawComm, Nat.add_comm])

/-- Claim C4 (counterexample): on a demands vector containing `-1`,
`generate_scenarios` does not return a matrix — the sampling scale
`0.2 * (-1)` is negative and numpy raises. -/
theorem generate_scenarios_negative_demand_fails :
    generate_scenarios [-1] 1 (1/5) zeroDraw = none := by
  unfold generate_scenarios
  split
  · next h =>
      exfalso
      rcases h with h | h
      · exact absurd h (by norm_num)
      · simp only [List.all_cons, List.all_nil, Bool.and_true, decide_eq_true_eq] at h
        norm_num at h
  · rfl

/-- Claim C4 (amended): for every demands vector with nonnegative entries and
every scenario count (at the code's nonnegative variance factor),
`generate_scenarios` returns a `num_scenarios × len(demands)` matrix whose
entries are all nonnegative — each entry is `max 0` of a sample. -/
theorem generate_scenarios_nonneg_matrix (demands : List ℚ) (k : ℕ) (vf : ℚ)
    (draw : ℕ → ℕ → ℚ) (hd : ∀ mu ∈ demands, 0 ≤ mu) (hvf : 0 ≤ vf) :
    ∃ scen, generate_scenarios demands k vf draw = some scen ∧
      scen.length = k ∧ ∀ row ∈ scen, row.length = demands.length ∧ ∀ x ∈ row, 0 ≤ x := by
  obtain ⟨scen, hgs, hlen, hrows⟩ :=
    gs_success_core demands k vf draw (fun mu hmu => mul_nonneg hvf (hd mu hmu))
  refine ⟨scen, hgs, hlen, fun row hrow => ⟨hrows row hrow, ?_⟩⟩
  intro x hx
  rw [generate_scenarios_some hgs] at hrow
  simp only [List.mem_map] at hrow
  obtain ⟨s, _, rfl⟩ := hrow
  simp only [List.mem_map] at hx
  obtain ⟨pq, _, rfl⟩ := hx
  exact le_max_left 0 _

/-- Witness for C4's amended theorem on the demands `[3, 4]` with two
scenarios. -/
theorem generate_scenarios_nonneg_matrix_witness :
    ∃ scen, generate_scenarios [3, 4] 2 (1/5) zeroDraw = some scen ∧
      scen.length = 2 ∧ ∀ row ∈ scen, row.length = 2 ∧ ∀ x ∈ row, 0 ≤ x := by
  have h := generate_scenarios_nonneg_matrix [3, 4] 2 (1/5) zeroDraw
    (by intro mu hmu; simp only [List.mem_cons, List.mem_singleton] at hmu
        rcases hmu with rfl | rfl | hmu
        · norm_num
        · norm_num
        · simp at hmu)
    (by norm_num)
  simpa using h

/-- Claim C9: `generate_scenarios` is total exactly on nonnegative demand:
with every demand nonnegative (and the nonnegative variance factor) it returns
a `num_scenarios × len(demands)` matrix, while a negative demand entry makes
the sampling scale negative, so any call that actually samples (at least one
scenario, positive variance factor) fails instead of returning a matrix. -/
theorem generate_scenarios_totality (demands : List ℚ) (k : ℕ) (vf : ℚ)
    (draw : ℕ → ℕ → ℚ) :
    ((∀ mu ∈ demands, 0 ≤ mu) → 0 ≤ vf →
      ∃ scen, generate_scenarios demands k vf draw = some scen ∧
        scen.length = k ∧ ∀ row ∈ scen, row.length = demands.length) ∧
    ((∃ mu ∈ demands, mu < 0) → 0 < vf → 0 < k →
      generate_scenarios demands k vf draw = none) := by
  constructor
  · intro hd hvf
    exact gs_success_core demands k vf draw (fun mu hmu => mul_nonneg hvf (hd mu hmu))
  · rintro ⟨mu, hmu, hneg⟩ hvf hk
    unfold generate_scenarios
    rw [if_neg]
    rintro (h | h)
    · omega
    · simp only [List.all_eq_true, decide_eq_true_eq] at h
      have h1 := h mu hmu
      have h2 : vf * mu < 0 := mul_neg_of_pos_of_neg hvf hneg
      linarith

/-- Witness for C9 at the nonnegative demands `[1, 2]` (three scenarios) and
at the negative demands `[-1]` (one scenario). -/
theorem generate_scenarios_totality_witness :
    (∃ scen, generate_scenarios [1, 2] 3 (1/5) zeroDraw = some scen ∧
      scen.length = 3 ∧ ∀ row ∈ scen, row.length = 2) ∧
    generate_scenarios [-2] 1 (1/5) zeroDraw = none := by
  constructor
  · have h := (generate_scenarios_totality [1, 2] 3 (1/5) zeroDraw).1
      (by intro mu hmu; simp only [List.mem_cons, List.mem_singleton] at hmu
          rcases hmu with rfl | rfl | hmu
          · norm_num
          · norm_num
          · simp at hmu)
      (by norm_num)
    simpa using h
  · exact (generate_scenarios_totality [-2] 1 (1/5) zeroDraw).2
      ⟨-2, by simp, by norm_num⟩ (by norm_num) (by norm_num)

/-- Claim C6 (counterexample): the `Data` type does not forbid field
mutation — Python attribute assignment on the non-frozen dataclass succeeds
and never raises `FrozenInstanceError`. -/
theorem data_mutation_not_forbidden :
    set_capacities dEx1 [7] = Except.ok { dEx1 with capacities := [7] } ∧
      ∀ e, set_capacities dEx1 [7] ≠ Except.error e := by
  refine ⟨rfl, ?_⟩
  intro e h
  simp [set_capacities, data_dataclass_frozen] at h

/-- Claim C6 (amended): nothing in the program mutates a `Data` after
`read_dataset` returns it (`main.py` only reads its fields), but the dataclass
is not declared frozen, so Python itself permits field assignment: it simply
rebinds the field. -/
theorem data_dataclass_mutable (d : Data) (v : List ℤ) :
    set_capacities d v = Except.ok { d with capacities := v } := rfl

/-- Claim C7: the core exposes a single solve operation, a function from the
problem instance to the `Result` entity, whose opening vector has one entry
per facility and whose per-scenario cut counters (incumbent-node and
relaxation-node separately) each have one entry per scenario, alongside the
objective value, elapsed time and node count fields. -/
theorem solve_interface_shape (d : Data) :
    (solve_stochastic_cflp d).locations.length = d.J.length ∧
    (solve_stochastic_cflp d).num_cuts_mip.length = d.S.length ∧
    (solve_stochastic_cflp d).num_cuts_rel.length = d.S.length := by
  refine ⟨?_, ?_, ?_⟩ <;> simp [solve_stochastic_cflp]

/-! List-indexing helper lemmas. -/

theorem getD_eq_getElem_of_lt {α : Type} (l : List α) (dflt : α) {n : ℕ}
    (h : n < l.length) : l.getD n dflt = l[n] := by
  rw [List.getD_eq_getElem?_getD, List.getElem?_eq_getElem h, Option.getD_some]

theorem map_range_getD (l : List ℚ) :
    (List.range l.length).map (fun i => l.getD i 0) = l := by
  induction l with
  | nil => simp
  | cons x xs ih =>
    rw [List.length_cons, List.range_succ_eq_map]
    simp only [List.map_cons, List.getD_cons_zero, List.map_map]
    congr 1

theorem getD_drop_eq (l : List String) (a m : ℕ) (s : String) :
    (l.drop a).getD m s = l.getD (a + m) s := by
  simp [List.getD_eq_getElem?_getD, List.getElem?_drop]

theorem getD_map_range {α : Type} (n i : ℕ) (f : ℕ → α) (dflt : α) (h : i < n) :
    ((List.range n).map f).getD i dflt = f i := by
  simp [List.getD_eq_getElem?_getD, List.getElem?_map, List.getElem?_range h]

theorem max?_isSome_of_pos (l : List ℚ) (h : 0 < l.length) :
    ∃ x, l.max? = some x := by
  cases l with
  | nil => simp at h
  | cons a as => exact ⟨as.foldl max a, rfl⟩

/-- Claim C2: the `max_demand_sum_over_scenario` field of every instance
returned by `read_dataset` equals the maximum, over the scenario indices of
`S`, of the sum over customer indices `i ∈ I` of the generated scenario
demands: every scenario's aggregate demand is bounded by the field, and some
scenario attains it. -/
theorem max_demand_sum_spec (toks : List String) (k : ℕ) (vf : ℚ) (draw : ℕ → ℕ → ℚ)
    (d : Data) (h : read_dataset toks k vf draw = some d) :
    (∀ s ∈ d.S, scenario_demand_sum d s ≤ d.max_demand_sum_over_scenario) ∧
    ∃ s ∈ d.S, scenario_demand_sum d s = d.max_demand_sum_over_scenario := by
  obtain ⟨ftok, ctok, rest, nfz, ncz, capfc, t2, demands, t3, costs, t4, scen, mx,
    htoks, hf, hc, hneg, h4, h5, h6, h7, h8, hd⟩ := read_dataset_inversion h
  obtain ⟨hmem, hub⟩ := max?_spec h8
  obtain ⟨hslen, hrows⟩ := generate_scenarios_shape h7
  obtain ⟨hdlen, -, -⟩ := readNums_spec py_float 0 ncz.toNat t2 demands t3 h5
  have hS : d.S = List.range k := by rw [hd]
  have hI : d.I = List.range ncz.toNat := by rw [hd]
  have hscen : d.scenarios = scen := by rw [hd]
  have hmx : d.max_demand_sum_over_scenario = mx := by rw [hd]
  have hkey : ∀ n, n < scen.length → scenario_demand_sum d n = (scen.getD n []).sum := by
    intro n hn
    unfold scenario_demand_sum
    rw [hI, hscen]
    have hrowlen : (scen.getD n []).length = ncz.toNat := by
      rw [getD_eq_getElem_of_lt scen [] hn]
      rw [hrows _ (List.getElem_mem hn)]
      exact hdlen
    rw [← hrowlen, map_range_getD]
  constructor
  · intro s hs
    rw [hS, List.mem_range] at hs
    have hs' : s < scen.length := by rw [hslen]; exact hs
    rw [hmx, hkey s hs']
    apply hub
    rw [getD_eq_getElem_of_lt scen [] hs']
    exact List.mem_map.mpr ⟨scen[s], List.getElem_mem hs', rfl⟩
  · obtain ⟨row, hrowmem, hrowsum⟩ := List.mem_map.mp hmem
    obtain ⟨n, hn, hgetn⟩ := List.getElem_of_mem hrowmem
    refine ⟨n, ?_, ?_⟩
    · rw [hS, List.mem_range, ← hslen]
      exact hn
    · rw [hmx, hkey n hn, getD_eq_getElem_of_lt scen [] hn, hgetn, hrowsum]

/-- Witness for C2 on the one-facility example dataset. -/
theorem max_demand_sum_spec_witness :
    (∀ s ∈ dEx1.S, scenario_demand_sum dEx1 s ≤ dEx1.max_demand_sum_over_scenario) ∧
    ∃ s ∈ dEx1.S, scenario_demand_sum dEx1 s = dEx1.max_demand_sum_over_scenario :=
  max_demand_sum_spec toks1 1 (1/5) zeroDraw dEx1 ev_toks1_1

/-- Claim C10: every instance `read_dataset` returns has mutually consistent
index sets and array shapes — `I`, `J`, `S` are initial index ranges, demands
match `|I|`, capacities and fixed costs match `|J|`, the scenario matrix is
`|S| × |I|`, and the shipment-cost matrix is `|I| × |J|`. -/
theorem read_dataset_shapes (toks : List String) (k : ℕ) (vf : ℚ) (draw : ℕ → ℕ → ℚ)
    (d : Data) (h : read_dataset toks k vf draw = some d) :
    d.I = List.range d.I.length ∧ d.J = List.range d.J.length ∧
    d.S = List.range d.S.length ∧ d.S.length = k ∧
    d.demands.length = d.I.length ∧
    d.capacities.length = d.J.length ∧ d.fixed_costs.length = d.J.length ∧
    d.scenarios.length = d.S.length ∧ (∀ row ∈ d.scenarios, row.length = d.I.length) ∧
    d.shipment_costs.length = d.I.length ∧
    ∀ row ∈ d.shipment_costs, row.length = d.J.length := by
  obtain ⟨ftok, ctok, rest, nfz, ncz, capfc, t2, demands, t3, costs, t4, scen, mx,
    htoks, hf, hc, hneg, h4, h5, h6, h7, h8, hd⟩ := read_dataset_inversion h
  obtain ⟨hslen, hrows⟩ := generate_scenarios_shape h7
  obtain ⟨hdlen, -, -⟩ := readNums_spec py_float 0 ncz.toNat t2 demands t3 h5
  obtain ⟨hclen, -⟩ := readPairs_spec py_int nfz.toNat rest capfc t2 h4
  subst hd
  refine ⟨by simp, by simp, by simp, by simp, by simp [hdlen], by simp [hclen],
    by simp [hclen], by simp [hslen], ?_, by simp, ?_⟩
  · intro row hrow
    simp only []
    rw [hrows row hrow, hdlen]
    simp
  · intro row hrow
    simp only [List.mem_map] at hrow
    obtain ⟨i, -, rfl⟩ := hrow
    simp

/-- Witness for C10 on the two-facility example dataset. -/
theorem read_dataset_shapes_witness :
    dEx2.I = List.range dEx2.I.length ∧ dEx2.J = List.range dEx2.J.length ∧
    dEx2.S = List.range dEx2.S.length ∧ dEx2.S.length = 1 ∧
    dEx2.demands.length = dEx2.I.length ∧
    dEx2.capacities.length = dEx2.J.length ∧ dEx2.fixed_costs.length = dEx2.J.length ∧
    dEx2.scenarios.length = dEx2.S.length ∧
    (∀ row ∈ dEx2.scenarios, row.length = dEx2.I.length) ∧
    dEx2.shipment_costs.length = dEx2.I.length ∧
    ∀ row ∈ dEx2.shipment_costs, row.length = dEx2.J.length :=
  read_dataset_shapes toks2 1 (1/5) zeroDraw dEx2 ev_toks2_1

/-- Claim C5: the stored shipment-cost matrix is the transpose of the
`num_facilities × num_customers` matrix read off the file in row-major order:
entry `(i, j)` of `shipment_costs` is parsed from the cost token at flat
position `j * |I| + i`, i.e. the file's facility-`j`, customer-`i` entry
(the cost block starts after the two header tokens, the `2 |J|` interleaved
capacity/fixed-cost tokens and the `|I|` demand tokens). -/
theorem shipment_costs_transposed (toks : List String) (k : ℕ) (vf : ℚ)
    (draw : ℕ → ℕ → ℚ) (d : Data) (h : read_dataset toks k vf draw = some d)
    (i j : ℕ) (hi : i < d.I.length) (hj : j < d.J.length) :
    py_float (toks.getD (2 + 2 * d.J.length + d.I.length + (j * d.I.length + i)) "")
      = some ((d.shipment_costs.getD i []).getD j 0) := by
  obtain ⟨ftok, ctok, rest, nfz, ncz, capfc, t2, demands, t3, costs, t4, scen, mx,
    htoks, hf, hc, hneg, h4, h5, h6, h7, h8, hd⟩ := read_dataset_inversion h
  obtain ⟨hclen, hdrop2⟩ := readPairs_spec py_int nfz.toNat rest capfc t2 h4
  obtain ⟨hdlen, hdrop3, -⟩ := readNums_spec py_float 0 ncz.toNat t2 demands t3 h5
  obtain ⟨hcostlen, -, hpos⟩ := readNums_spec py_float 0 (nfz.toNat * ncz.toNat) t3 costs t4 h6
  have hI : d.I = List.range ncz.toNat := by rw [hd]
  have hJ : d.J = List.range nfz.toNat := by rw [hd]
  have hship : d.shipment_costs = (List.range ncz.toNat).map (fun i2 =>
      (List.range nfz.toNat).map (fun j2 => costs.getD (j2 * ncz.toNat + i2) 0)) := by
    rw [hd]
  simp only [hI, hJ, hship, List.length_range] at hi hj ⊢
  rw [getD_map_range _ _ _ _ hi, getD_map_range _ _ _ _ hj]
  have hlt : j * ncz.toNat + i < nfz.toNat * ncz.toNat := by
    have h1 : j + 1 ≤ nfz.toNat := hj
    have h2 : (j + 1) * ncz.toNat ≤ nfz.toNat * ncz.toNat := Nat.mul_le_mul_right _ h1
    have h3 : j * ncz.toNat + i < (j + 1) * ncz.toNat := by
      rw [Nat.succ_mul]
      omega
    omega
  have hp := hpos (j * ncz.toNat + i) hlt
  rw [hdrop3, hdrop2, List.drop_drop, getD_drop_eq] at hp
  rw [htoks]
  have harith : 2 + 2 * nfz.toNat + ncz.toNat + (j * ncz.toNat + i)
      = (2 * nfz.toNat + ncz.toNat + (j * ncz.toNat + i)) + 1 + 1 := by omega
  rw [harith, List.getD_cons_succ, List.getD_cons_succ]
  exact hp

/-- Witness for C5: in the two-facility example, entry `(0, 1)` of the stored
matrix is the file's cost token at flat position `1 * 2 + 0` of the cost
block, the entry for facility `1`, customer `0`. -/
theorem shipment_costs_transposed_witness :
    py_float (toks2.getD (2 + 2 * dEx2.J.length + dEx2.I.length + (1 * dEx2.I.length + 0)) "")
      = some ((dEx2.shipment_costs.getD 0 []).getD 1 0) :=
  shipment_costs_transposed toks2 1 (1/5) zeroDraw dEx2 ev_toks2_1 0 1
    (by decide) (by decide)

/-- Whether `generate_scenarios` succeeds does not depend on the drawn
samples: the scale check inspects only the demands and the variance factor. -/
theorem generate_scenarios_isSome_draw_free (demands : List ℚ) (k : ℕ) (vf : ℚ)
    (draw1 draw2 : ℕ → ℕ → ℚ) :
    (generate_scenarios demands k vf draw1).isSome
      = (generate_scenarios demands k vf draw2).isSome := by
  unfold generate_scenarios
  by_cases hcond : k = 0 ∨ (demands.all fun mu => decide (0 ≤ vf * mu)) = true
  · rw [if_pos hcond, if_pos hcond]
    rfl
  · rw [if_neg hcond, if_neg hcond]

/-- The deterministic fields of the parse do not depend on the draw oracle:
only the scenario matrix and the demand maximum do. -/
theorem parse_fields_draw_free (toks : List String) (k : ℕ) (vf : ℚ)
    (draw1 draw2 : ℕ → ℕ → ℚ) :
    parse_fields (read_dataset toks k vf draw1)
      = parse_fields (read_dataset toks k vf draw2) := by
  cases toks with
  | nil => rfl
  | cons ftok ts =>
    cases ts with
    | nil => rfl
    | cons ctok rest =>
      simp only [read_dataset]
      cases py_int ftok with
      | none => rfl
      | some nfz =>
        cases py_int ctok with
        | none => rfl
        | some ncz =>
          dsimp only
          by_cases hneg : nfz < 0 ∨ ncz < 0
          · rw [if_pos hneg, if_pos hneg]
          · rw [if_neg hneg, if_neg hneg]
            cases readPairs py_int nfz.toNat rest with
            | none => rfl
            | some pr =>
              obtain ⟨capfc, t2⟩ := pr
              dsimp only
              cases readNums py_float ncz.toNat t2 with
              | none => rfl
              | some pr2 =>
                obtain ⟨demands, t3⟩ := pr2
                dsimp only
                cases readNums py_float (nfz.toNat * ncz.toNat) t3 with
                | none => rfl
                | some pr3 =>
                  obtain ⟨costs, t4⟩ := pr3
                  dsimp only
                  cases hg1 : generate_scenarios demands k vf draw1 with
                  | none =>
                    cases hg2 : generate_scenarios demands k vf draw2 with
                    | none => rfl
                    | some scen2 =>
                      have hiso := generate_scenarios_isSome_draw_free demands k vf draw1 draw2
                      rw [hg1, hg2] at hiso
                      simp at hiso
                  | some scen1 =>
                    cases hg2 : generate_scenarios demands k vf draw2 with
                    | none =>
                      have hiso := generate_scenarios_isSome_draw_free demands k vf draw1 draw2
                      rw [hg1, hg2] at hiso
                      simp at hiso
                    | some scen2 =>
                      dsimp only
                      obtain ⟨hl1, -⟩ := generate_scenarios_shape hg1
                      obtain ⟨hl2, -⟩ := generate_scenarios_shape hg2
                      cases k with
                      | zero =>
                        have e1 : scen1 = [] := List.length_eq_zero.mp hl1
                        have e2 : scen2 = [] := List.length_eq_zero.mp hl2
                        subst e1; subst e2
                        rfl
                      | succ m =>
                        obtain ⟨mx1, hmx1⟩ := max?_isSome_of_pos (scen1.map List.sum)
                          (by simp [hl1])
                        obtain ⟨mx2, hmx2⟩ := max?_isSome_of_pos (scen2.map List.sum)
                          (by simp [hl2])
                        rw [hmx1, hmx2]
                        rfl

/-- Claim C8: parsing is insensitive to line structure — two dataset files
that split into the same sequence of whitespace-separated tokens produce
instances with identical deterministic fields (`I`, `J`, `S`, demands,
capacities, fixed costs, shipment costs), whatever the random draws of the
two runs. -/
theorem read_dataset_line_insensitive (lines1 lines2 : List String) (k : ℕ) (vf : ℚ)
    (draw1 draw2 : ℕ → ℕ → ℚ) (h : word_reader lines1 = word_reader lines2) :
    parse_fields (read_dataset_file lines1 k vf draw1)
      = parse_fields (read_dataset_file lines2 k vf draw2) := by
  unfold read_dataset_file
  rw [h]
  exact parse_fields_draw_free (word_reader lines2) k vf draw1 draw2

/-- Witness for C8: two files with the same tokens split across different
lines, read under different draw oracles. -/
theorem read_dataset_line_insensitive_witness :
    parse_fields (read_dataset_file ["1 1 5 10", "3 2"] 1 (1/5) zeroDraw)
      = parse_fields (read_dataset_file ["1", "1 5", "10 3 2"] 1 (1/5) oneDraw) :=
  read_dataset_line_insensitive ["1 1 5 10", "3 2"] ["1", "1 5", "10 3 2"] 1 (1/5)
    zeroDraw oneDraw (by decide)

end StochasticCFLP
